import Mathlib

/-!
# Verification of `scripts/ktm_taskade.py`

A shallow embedding of the KTM → Taskade dashboard script, together with
theorems settling the frozen claims about it.

Modelling conventions:
* Python strings are Lean `String`s; `str.lower()` is modelled as an
  ASCII-wise character map (`pyLower`), `str.strip()` as dropping leading
  and trailing whitespace characters (`pyStrip`), and `pat in s` as
  substring occurrence (`strContains`).
* Python floats are modelled as rationals (`ℚ`); `round(x, n)` is modelled
  as exact decimal round-half-to-even (`pyRound`), the idealised version of
  CPython's float rounding.
* Protobuf semantics follow the Python `google.protobuf` runtime: a
  singular sub-message field is *always truthy* (`Message` defines neither
  `__bool__` nor `__len__`), and a proto2 scalar field reads as its default
  value (never `None`) when unset.  These two facts are made explicit by
  `msgTruthy` and `protoFloatIsNone` below.
* Effectful calls are embedded by passing the environment's reaction (HTTP
  responses, decoded feed, wall-clock string) as explicit oracle inputs;
  exceptions become `Except` values.
-/

namespace KTM

/-! ## Python string primitives -/

/-- Python whitespace characters stripped by `str.strip()`. -/
def wsChar (c : Char) : Bool :=
  c = ' ' || c = '\t' || c = '\n' || c = '\r' || c = '\x0b' || c = '\x0c'

/-- Model of Python `s.strip()`: drop leading and trailing whitespace. -/
def pyStrip (s : String) : String :=
  String.mk (((s.data.dropWhile wsChar).reverse.dropWhile wsChar).reverse)

/-- Model of Python `s.lower()` (ASCII case folding). -/
def pyLower (s : String) : String :=
  String.mk (s.data.map Char.toLower)

/-- Whether `pat` starts the character list `s`. -/
def startsWithL : List Char → List Char → Bool
  | [], _ => true
  | _ :: _, [] => false
  | p :: ps, c :: cs => p = c && startsWithL ps cs

/-- Whether `pat` occurs somewhere in the character list `s`. -/
def occursIn (pat : List Char) : List Char → Bool
  | [] => pat.isEmpty
  | c :: cs => startsWithL pat (c :: cs) || occursIn pat cs

/-- Model of Python `pat in s` for strings. -/
def strContains (s pat : String) : Bool :=
  occursIn pat.data s.data

/-! ## Rounding -/

/-- Round a rational to the nearest integer, ties to even
(the rounding mode of Python's builtin `round`). -/
def roundHalfEven (q : ℚ) : ℤ :=
  let f : ℤ := Rat.floor q
  let r : ℚ := q - (f : ℚ)
  if r < 1/2 then f
  else if 1/2 < r then f + 1
  else if f % 2 = 0 then f else f + 1

/-- Model of Python `round(q, n)` for `n` decimal digits. -/
def pyRound (q : ℚ) (n : ℕ) : ℚ :=
  ((roundHalfEven (q * 10 ^ n) : ℚ)) / 10 ^ n

/-! ## GTFS-realtime data model (`parse_feed`, lines 96–127)

The protobuf message tree is flattened to the fields the script reads.
`positionPresent` records wire presence of the `position` sub-message
(what `HasField("position")` would return); when it is `false` the
`position` field holds the protobuf default instance (all zeros). -/

structure Position where
  latitude : ℚ
  longitude : ℚ
  speed : ℚ
deriving DecidableEq

structure VehicleDesc where
  id : String
deriving DecidableEq

structure TripDesc where
  route_id : String
deriving DecidableEq

structure VehiclePosition where
  vehicle : VehicleDesc
  trip : TripDesc
  position : Position
  positionPresent : Bool
deriving DecidableEq

structure Entity where
  hasVehicle : Bool
  vehicle : VehiclePosition
deriving DecidableEq

structure Feed where
  headerTimestamp : ℕ
  entities : List Entity
deriving DecidableEq

/-- Python truthiness of a protobuf sub-message object: always `True`,
regardless of wire presence (`Message` has no `__bool__`/`__len__`).
This is what the source's `if vehicle.position:` actually tests. -/
def msgTruthy (_ : Position) : Bool := true

/-- Whether reading a proto2 scalar float field yields `None`: it never
does; an unset field reads as its default `0.0`.  This is what the
source's `vehicle.position.speed is not None` actually tests. -/
def protoFloatIsNone (_ : ℚ) : Bool := false

/-- A record of the dict produced per vehicle entity; `lat`, `lon` and
`speed_kmh` are either a number or the string sentinel. -/
inductive GeoVal where
  | num (q : ℚ)
  | unknownV
deriving DecidableEq

structure VehicleRec where
  vehicle_id : String
  route_id : String
  lat : GeoVal
  lon : GeoVal
  speed_kmh : GeoVal
deriving DecidableEq

/-- Body of the entity loop of `parse_feed` (lines 102–126). -/
def extract_vehicles : List Entity → List VehicleRec
  | [] => []
  | e :: rest =>
    if !e.hasVehicle then extract_vehicles rest
    else
      let v := e.vehicle
      let train_id := if v.vehicle.id ≠ "" then v.vehicle.id else "Unknown"
      let route_id := if v.trip.route_id ≠ "" then v.trip.route_id else "Unknown"
      let record :=
        if msgTruthy v.position then
          { vehicle_id := train_id, route_id := route_id,
            lat := GeoVal.num (pyRound v.position.latitude 6),
            lon := GeoVal.num (pyRound v.position.longitude 6),
            speed_kmh :=
              if protoFloatIsNone v.position.speed then GeoVal.num 0
              else GeoVal.num (pyRound (v.position.speed * (18/5)) 2) }
        else
          { vehicle_id := train_id, route_id := route_id,
            lat := GeoVal.unknownV, lon := GeoVal.unknownV,
            speed_kmh := GeoVal.unknownV }
      record :: extract_vehicles rest

/-- `parse_feed` (lines 96–127).  `feed.header` is a sub-message and hence
always truthy, so the header guard reduces to `timestamp != 0`
(an unset proto2 scalar reads as its default `0`). -/
def parse_feed (feed : Feed) : Option ℕ × List VehicleRec :=
  let feed_ts : Option ℕ :=
    if feed.headerTimestamp ≠ 0 then some feed.headerTimestamp else none
  (feed_ts, extract_vehicles feed.entities)

/-! ## Markdown rendering (`format_markdown`, lines 131–165)

The display timestamp is resolved from the wall clock and `pytz`; that
resolution is I/O, so the resolved string is taken as an input
(`last_updated`).  Numeric rendering of rationals stands in for Python's
float formatting; no claim depends on the numeral text. -/

def geoStr : GeoVal → String
  | GeoVal.num q => toString q
  | GeoVal.unknownV => "Unknown"

/-- The per-vehicle block appended inside the loop (lines 152–163). -/
def vehicleBlock (v : VehicleRec) : String :=
  "  - **Train ID:** " ++ v.vehicle_id ++ " | **Route:** " ++ v.route_id ++ "\n" ++
  "    - **Location:** `" ++ geoStr v.lat ++ ", " ++ geoStr v.lon ++ "`\n" ++
  "    - **Speed:** " ++ geoStr v.speed_kmh ++ " km/h\n"

/-- `format_markdown` (lines 131–165), translated as the same sequence of
string appends the source performs. -/
def format_markdown (last_updated : String) (vehicles : List VehicleRec) : String :=
  let total := vehicles.length
  let c1 := "üöå **KTM Train Status Live Update**\n\n"
  let c2 := c1 ++ ("*Last updated: " ++ last_updated ++ "*\n\n")
  if total = 0 then
    c2 ++ "No active trains detected at the moment."
  else
    let c3 := c2 ++ ("Found **" ++ toString total ++ "** active trains.\n\n")
    vehicles.foldl (fun acc v => acc ++ vehicleBlock v) c3

/-! Spec-shaped decomposition of the report, used to state C7. -/

def specTitleLine : String := "üöå **KTM Train Status Live Update**\n\n"

def specUpdatedLine (lu : String) : String := "*Last updated: " ++ lu ++ "*\n\n"

def specNoTrainsLine : String := "No active trains detected at the moment."

def specCountLine (n : ℕ) : String := "Found **" ++ toString n ++ "** active trains.\n\n"

/-- One block per record, in input order. -/
def specBlocks : List VehicleRec → String
  | [] => ""
  | v :: vs => vehicleBlock v ++ specBlocks vs

/-- The report as the spec describes it: title line, last-updated line,
then either the no-trains line or the count line followed by every
record's block in order. -/
def specReport (lu : String) (vs : List VehicleRec) : String :=
  specTitleLine ++ specUpdatedLine lu ++
    (if vs = [] then specNoTrainsLine else specCountLine vs.length ++ specBlocks vs)

/-! ## Retrying HTTP client (`http_request`, lines 54–83)

One run of the retry loop is determined by what the network would give
each attempt: either a transport-level exception during
`requests.request`, or a response with some status code.  The list
`outcomes` has one entry per possible attempt, so its length plays the
role of `MAX_RETRIES`.  The loop sleeps `RETRY_BACKOFF ** (attempt - 1)`
seconds after every failed attempt; sleeps are recorded in order.
`result = .error none` is the `assert last_err is not None` failure,
reachable only when `MAX_RETRIES < 1`. -/

inductive Outcome where
  | transport
  | resp (status : ℕ)
deriving DecidableEq

inductive HErr where
  | transport
  | httpError (status : ℕ)
deriving DecidableEq

/-- Whether an attempt outcome is treated as a transient failure by the
loop (transport exception, or status `>= 500` which is raised as
`requests.HTTPError`). -/
def isTransientO : Outcome → Bool
  | Outcome.transport => true
  | Outcome.resp s => decide (500 ≤ s)

/-- The exception a failed attempt stores in `last_err`. -/
def outErr : Outcome → HErr
  | Outcome.transport => HErr.transport
  | Outcome.resp s => HErr.httpError s

structure HttpResult where
  /-- `ok (attempt, status)`: the response returned, tagged with the
  1-based attempt that produced it.  `error (some e)`: `raise last_err`.
  `error none`: the `assert` fails (no attempt was ever made). -/
  result : Except (Option HErr) (ℕ × ℕ)
  /-- Durations passed to `time.sleep`, in order. -/
  sleeps : List ℚ
  /-- Number of attempts actually issued. -/
  attempts : ℕ

/-- The `for attempt in range(1, MAX_RETRIES + 1)` loop; `att` is the
1-based number of the next attempt. -/
def http_loop (backoff : ℚ) : ℕ → List Outcome → Option HErr → HttpResult
  | _, [], lastErr => ⟨Except.error lastErr, [], 0⟩
  | att, o :: rest, _ =>
    match o with
    | Outcome.resp s =>
      if 500 ≤ s then
        let r := http_loop backoff (att + 1) rest (some (HErr.httpError s))
        ⟨r.result, backoff ^ (att - 1) :: r.sleeps, r.attempts + 1⟩
      else
        ⟨Except.ok (att, s), [], 1⟩
    | Outcome.transport =>
      let r := http_loop backoff (att + 1) rest (some HErr.transport)
      ⟨r.result, backoff ^ (att - 1) :: r.sleeps, r.attempts + 1⟩

/-- `http_request` (lines 54–83): run the retry loop from attempt 1 with
`last_err = None`. -/
def http_request (backoff : ℚ) (outcomes : List Outcome) : HttpResult :=
  http_loop backoff 1 outcomes none

/-! ## Taskade client (`TaskadeClient`, lines 169–256)

Exceptions raised across the client and orchestrator. All three handlers
at the bottom of `main` (`RequestException`, `KeyError`, `Exception`) map
to exit code 1, but the distinct Python types are kept. -/

inductive PyErr where
  | keyError (k : String)
  | indexError
  | typeError
  | runtimeError
  | valueError
  | requestError
deriving DecidableEq

/-- JSON values, as returned by `resp.json()`. -/
inductive JVal where
  | jnull
  | jbool (b : Bool)
  | jnum (n : ℤ)
  | jstr (s : String)
  | jarr (elems : List JVal)
  | jobj (fields : List (String × JVal))

def jLookup : List (String × JVal) → String → Option JVal
  | [], _ => none
  | (k, v) :: rest, key => if k = key then some v else jLookup rest key

/-- Python's `d[k]` for a string key: `KeyError` when the key is absent
from a dict, `TypeError` when the value is not subscriptable that way. -/
def pySubscriptKey (v : JVal) (k : String) : Except PyErr JVal :=
  match v with
  | JVal.jobj fields =>
    match jLookup fields k with
    | some x => Except.ok x
    | none => Except.error (PyErr.keyError k)
  | _ => Except.error PyErr.typeError

/-- Python's `v[i]` for a numeric index: `IndexError` past the end of a
list, `KeyError` on a dict without that key. -/
def pySubscriptIdx (v : JVal) (i : ℕ) : Except PyErr JVal :=
  match v with
  | JVal.jarr elems =>
    match elems.get? i with
    | some x => Except.ok x
    | none => Except.error PyErr.indexError
  | JVal.jobj _ => Except.error (PyErr.keyError (toString i))
  | _ => Except.error PyErr.typeError

/-- The identifier lookup `response_data['item'][0]['id']` (line 208). -/
def parse_item_id (body : JVal) : Except PyErr JVal :=
  match pySubscriptKey body "item" with
  | Except.error e => Except.error e
  | Except.ok item =>
    match pySubscriptIdx item 0 with
    | Except.error e => Except.error e
    | Except.ok first => pySubscriptKey first "id"

/-- Python truthiness of a JSON value. -/
def jTruthy : JVal → Bool
  | JVal.jnull => false
  | JVal.jbool b => b
  | JVal.jnum n => decide (n ≠ 0)
  | JVal.jstr s => decide (s ≠ "")
  | JVal.jarr elems => !elems.isEmpty
  | JVal.jobj fields => !fields.isEmpty

/-- Python `str()` of a JSON value.  Container reprs are abbreviated;
no claim inspects them. -/
def pyStrOfJ : JVal → String
  | JVal.jnull => "None"
  | JVal.jbool b => if b then "True" else "False"
  | JVal.jnum n => toString n
  | JVal.jstr s => s
  | JVal.jarr _ => "[...]"
  | JVal.jobj _ => "{...}"

/-- A task item as seen by `find_task_by_title` and `main`: the three
dict fields the script reads.  `none` models the key being absent or its
value being JSON `null` — `dict.get` returns `None` in both cases, and
every read goes through a falsy-guarded `or`.  Identifier values are
modelled as strings (`str()` of a string is itself). -/
structure TaskItem where
  title : Option String
  id : Option String
  task_id : Option String
deriving DecidableEq

/-- The stripped title `t = (it.get("title") or "").strip()` (line 245). -/
def getTitle (it : TaskItem) : String :=
  pyStrip (it.title.getD "")

/-- The loop's first test (line 248): exact case-insensitive title match. -/
def exactMatch (it : TaskItem) (title : String) : Bool :=
  decide (pyLower (getTitle it) = pyLower title)

/-- The loop's second test (line 252): the stripped title contains all of
"ktm", "status" and "update" case-insensitively. -/
def kwMatch (it : TaskItem) : Bool :=
  strContains (pyLower (getTitle it)) "ktm" &&
  strContains (pyLower (getTitle it)) "status" &&
  strContains (pyLower (getTitle it)) "update"

/-- The scan of `find_task_by_title` (lines 244–256) over the items that
`list_tasks` returned.  Each iteration tests the exact match and then the
keyword match on the same item before moving on. -/
def find_task_by_title (items : List TaskItem) (title : String) : Option TaskItem :=
  match items with
  | [] => none
  | it :: rest =>
    let t := getTitle it
    if pyLower t = pyLower title then some it
    else if strContains (pyLower t) "ktm" && strContains (pyLower t) "status" &&
        strContains (pyLower t) "update" then some it
    else find_task_by_title rest title

/-- The three JSON shapes `list_tasks` distinguishes (lines 234–239). -/
inductive ListBody where
  | dictWithItems (items : List TaskItem)
  | bareList (items : List TaskItem)
  | otherShape

/-- `list_tasks` (lines 229–239).  `resp` is the outcome of the
`http_request` call: an exception, or a response given as status code
plus decoded JSON body. -/
def list_tasks (resp : Except PyErr (ℕ × ListBody)) : Except PyErr (List TaskItem) :=
  match resp with
  | Except.error e => Except.error e
  | Except.ok (status, body) =>
    if status ≠ 200 then Except.error PyErr.runtimeError
    else Except.ok (match body with
      | ListBody.dictWithItems items => items
      | ListBody.bareList items => items
      | ListBody.otherShape => [])

/-- `update_task` (lines 216–227); only the status code of the response
is inspected.  Returns the task id (standing for `{"task_id": task_id}`). -/
def update_task (resp : Except PyErr ℕ) (task_id : String) : Except PyErr String :=
  match resp with
  | Except.error e => Except.error e
  | Except.ok status =>
    if status = 200 ∨ status = 204 then Except.ok task_id
    else Except.error PyErr.runtimeError

/-- `create_task` (lines 185–214).  On a 200/201 response the identifier
is parsed via `response_data['item'][0]['id']`; the `except KeyError`
handler logs and re-raises the same exception, so every parse failure
propagates unchanged.  On success the parsed id value (the `"id"` entry
of the returned dict) is produced. -/
def create_task (resp : Except PyErr (ℕ × JVal)) : Except PyErr JVal :=
  match resp with
  | Except.error e => Except.error e
  | Except.ok (status, body) =>
    if status = 200 ∨ status = 201 then parse_item_id body
    else Except.error PyErr.runtimeError

/-! ## Orchestrator (`main`, lines 259–322)

`main` is embedded as a function of the configuration and of the
environment's reactions, returning the process exit code together with
the ordered trace of outward calls it performed.  `Call.fetchFeed` is the
feed GET, the other entries are the Taskade client methods `main`
invokes.  `find_task_by_title` begins by calling `list_tasks`, so its
network traffic is a consequence of `Call.findT`. -/

inductive Call where
  | fetchFeed
  | updateT (id : String)
  | findT
  | createT
deriving DecidableEq

/-- The environment-sourced configuration `main` reads
(`TASKADE_PROJECT_ID`, `TASKADE_API_TOKEN`, `TASKADE_TASK_ID`;
an unset variable is the empty string, per `os.getenv(..., "")`). -/
structure Config where
  projectId : String
  token : String
  taskId : String

/-- The environment's reactions: the decoded feed (or the exception the
fetch raised), the resolved display timestamp, and the `http_request`
outcome for each endpoint.  Responses in this model may depend only on
the task id; no claim constrains content-dependence. -/
structure World where
  fetchResult : Except PyErr Feed
  lastUpdated : String
  updateResp : String → Except PyErr ℕ
  listResp : Except PyErr (ℕ × ListBody)
  createResp : Except PyErr (ℕ × JVal)

def DASHBOARD_TITLE : String := "KTM Train Status Live Update"

/-- Python truthiness of an optional string field value. -/
def optTruthy : Option String → Bool
  | some s => decide (s ≠ "")
  | none => false

/-- `str(existing.get("id") or existing.get("task_id") or "")` (line 289). -/
def discoveredId (it : TaskItem) : String :=
  if optTruthy it.id then it.id.getD ""
  else if optTruthy it.task_id then it.task_id.getD ""
  else ""

/-- The create branch of `main` (lines 299–307): on any exception from
`create_task` the handlers at the bottom return 1; otherwise the id is
stringified, a JSON line is printed when it is non-empty and a warning is
logged when it is not, and either way the function returns 0. -/
def createPath (w : World) (tr : List Call) : ℕ × List Call :=
  match create_task w.createResp with
  | Except.error _ => (1, tr ++ [Call.createT])
  | Except.ok idv =>
    let new_id := if jTruthy idv then pyStrOfJ idv else ""
    if new_id ≠ "" then (0, tr ++ [Call.createT])
    else (0, tr ++ [Call.createT])

/-- `main` (lines 259–322).  The `TaskadeClient` constructor cannot raise
here: the base URL is a non-empty constant and the token was just checked.
All three exception handlers (`RequestException`, `KeyError`, bare
`Exception`) return 1. -/
def main (cfg : Config) (w : World) : ℕ × List Call :=
  if cfg.projectId = "" then (2, [])
  else if cfg.token = "" then (2, [])
  else
    match w.fetchResult with
    | Except.error _ => (1, [Call.fetchFeed])
    | Except.ok feed =>
      let _content_md := format_markdown w.lastUpdated (parse_feed feed).2
      let task_id := if cfg.taskId ≠ "" then pyStrip cfg.taskId else ""
      if task_id ≠ "" then
        match update_task (w.updateResp task_id) task_id with
        | Except.ok _ => (0, [Call.fetchFeed, Call.updateT task_id])
        | Except.error _ => (1, [Call.fetchFeed, Call.updateT task_id])
      else
        match list_tasks w.listResp with
        | Except.error _ => (1, [Call.fetchFeed, Call.findT])
        | Except.ok items =>
          match find_task_by_title items DASHBOARD_TITLE with
          | some existing =>
            let discovered := discoveredId existing
            if discovered = "" then
              createPath w [Call.fetchFeed, Call.findT]
            else
              match update_task (w.updateResp discovered) discovered with
              | Except.ok _ => (0, [Call.fetchFeed, Call.findT, Call.updateT discovered])
              | Except.error _ => (1, [Call.fetchFeed, Call.findT, Call.updateT discovered])
          | none => createPath w [Call.fetchFeed, Call.findT]

/-! ## Concrete fixtures used by counterexamples and witnesses -/

/-- An empty decoded feed (no header timestamp, no entities). -/
def feed0 : Feed := ⟨0, []⟩

/-- A benign environment: empty feed, all endpoints healthy, an empty
task list, and a create response whose body lacks the `item` path. -/
def w0 : World :=
  { fetchResult := Except.ok feed0
    lastUpdated := "2025-01-01 00:00:00 +08"
    updateResp := fun _ => Except.ok 200
    listResp := Except.ok (200, ListBody.bareList [])
    createResp := Except.ok (200, JVal.jobj [("ok", JVal.jbool true)]) }

/-- Configuration with project id and token set but no task id. -/
def cfgNoTask : Config := ⟨"proj1", "tok1", ""⟩

/-- Configuration with a (padded) task id configured. -/
def cfgWithTask : Config := ⟨"proj6", "tok6", " tid6 "⟩

/-- A task whose title contains the three keyword tokens but is not the
dashboard title. -/
def kwOnlyItem : TaskItem := ⟨some "my ktm status update note", none, none⟩

/-- A task titled exactly like the dashboard, carrying an id. -/
def exactItem : TaskItem := ⟨some "KTM Train Status Live Update", some "tid2", none⟩

/-- A task titled exactly like the dashboard but with no usable id field. -/
def idlessItem : TaskItem := ⟨some "KTM Train Status Live Update", none, none⟩

/-- Environment whose task list holds only `idlessItem` and whose create
endpoint answers with a well-formed body. -/
def wIdless : World :=
  { fetchResult := Except.ok feed0
    lastUpdated := "2025-01-01 00:00:00 +08"
    updateResp := fun _ => Except.ok 200
    listResp := Except.ok (200, ListBody.dictWithItems [idlessItem])
    createResp := Except.ok (200,
      JVal.jobj [("item", JVal.jarr [JVal.jobj [("id", JVal.jstr "newid1")]])]) }

/-- A feed with a single entity that has vehicle data but whose
`position` sub-message is absent from the wire (`HasField("position")`
is false, so the `position` field holds the all-zero default instance). -/
def noPositionFeed : Feed := ⟨0, [⟨true, ⟨⟨""⟩, ⟨""⟩, ⟨0, 0, 0⟩, false⟩⟩]⟩

/-- The record the script actually produces for `noPositionFeed`'s entity. -/
def zeroGeoRec : VehicleRec := ⟨"Unknown", "Unknown", GeoVal.num 0, GeoVal.num 0, GeoVal.num 0⟩

/-- Attempt outcomes that are all transient (5xx or transport failure). -/
def transientOuts : List Outcome := [Outcome.resp 503, Outcome.resp 500, Outcome.transport]

/-- Attempt outcomes whose first success is a 404 on the third attempt. -/
def mixedOuts : List Outcome := [Outcome.resp 503, Outcome.transport, Outcome.resp 404]

/-! ## Helper lemmas -/

theorem ratFloor_eq_floor (q : ℚ) : Rat.floor q = ⌊q⌋ := rfl

theorem data_ne_nil_of_ne_empty {s : String} (h : s ≠ "") : s.data ≠ [] := by
  intro hd
  exact h (String.ext (by simp [hd]))

theorem pyLower_ne_empty {s : String} (h : s ≠ "") : pyLower s ≠ "" := by
  intro hl
  have hdata : (s.data.map Char.toLower) = [] := congrArg String.data hl
  exact data_ne_nil_of_ne_empty h (List.map_eq_nil_iff.mp hdata)

theorem foldl_blocks (vs : List VehicleRec) (a : String) :
    vs.foldl (fun acc v => acc ++ vehicleBlock v) a = a ++ specBlocks vs := by
  induction vs generalizing a with
  | nil => simp [specBlocks]
  | cons v vs ih => simp [specBlocks, ih, String.append_assoc]

theorem taskId_strip_eq (s : String) : (if s ≠ "" then pyStrip s else "") = pyStrip s := by
  by_cases h : s = ""
  · subst h; rfl
  · simp [h]

theorem foldl_lastErr (outs : List Outcome) (le : Option HErr) (h : outs ≠ []) :
    outs.foldl (fun _ o => some (outErr o)) le = (outs.getLast?).map outErr := by
  induction outs generalizing le with
  | nil => exact absurd rfl h
  | cons o rest ih =>
    cases rest with
    | nil => rfl
    | cons o2 r2 =>
      rw [List.foldl_cons, ih (some (outErr o)) (by simp), List.getLast?_cons_cons]

theorem http_loop_transient_run (b : ℚ) (outs : List Outcome) :
    ∀ (att : ℕ) (le : Option HErr), 1 ≤ att →
      (∀ o ∈ outs, isTransientO o = true) →
      (http_loop b att outs le).result =
          Except.error (outs.foldl (fun _ o => some (outErr o)) le) ∧
      (http_loop b att outs le).sleeps =
          (List.range outs.length).map (fun i => b ^ (att - 1 + i)) ∧
      (http_loop b att outs le).attempts = outs.length := by
  induction outs with
  | nil => exact fun att le _ _ => ⟨rfl, rfl, rfl⟩
  | cons o rest ih =>
    intro att le hatt hall
    obtain ⟨h1, h2, h3⟩ :=
      ih (att + 1) (some (outErr o)) (by omega)
        (fun x hx => hall x (List.mem_cons_of_mem _ hx))
    have ho := hall o (List.mem_cons_self _ _)
    have hsleeps : ∀ r : HttpResult,
        r.sleeps = (List.range rest.length).map (fun i => b ^ (att + 1 - 1 + i)) →
        b ^ (att - 1) :: r.sleeps =
          (List.range (rest.length + 1)).map (fun i => b ^ (att - 1 + i)) := by
      intro r hr
      rw [hr, List.range_succ_eq_map, List.map_cons, List.map_map]
      refine congrArg₂ List.cons ?_ ?_
      · exact congrArg (fun e => b ^ e) (by omega)
      · refine List.map_congr_left ?_
        intro a _
        simp only [Function.comp_apply]
        congr 1
        omega
    cases o with
    | transport =>
      refine ⟨?_, ?_, ?_⟩
      · simp only [http_loop, List.foldl_cons]; exact h1
      · simp only [http_loop, List.length_cons]
        exact hsleeps _ h2
      · simp only [http_loop, List.length_cons]
        exact congrArg (fun n => n + 1) h3
    | resp s0 =>
      have hs : 500 ≤ s0 := of_decide_eq_true ho
      refine ⟨?_, ?_, ?_⟩
      · simp only [http_loop, if_pos hs, List.foldl_cons]; exact h1
      · simp only [http_loop, if_pos hs, List.length_cons]
        exact hsleeps _ h2
      · simp only [http_loop, if_pos hs, List.length_cons]
        exact congrArg (fun n => n + 1) h3

theorem http_loop_ok_inv (b : ℚ) (outs : List Outcome) :
    ∀ (att0 : ℕ) (le : Option HErr) (att s : ℕ),
      (http_loop b att0 outs le).result = Except.ok (att, s) →
      s < 500 ∧ att0 ≤ att ∧ att - att0 < outs.length ∧
      outs[att - att0]? = some (Outcome.resp s) ∧
      (∀ i < att - att0, ∃ o, outs[i]? = some o ∧ isTransientO o = true) ∧
      (http_loop b att0 outs le).attempts = att - att0 + 1 := by
  induction outs with
  | nil =>
    intro att0 le att s h
    exact absurd h (by simp [http_loop])
  | cons o rest ih =>
    intro att0 le att s h
    have step :
        ∀ e : HErr,
          (http_loop b (att0 + 1) rest (some e)).result = Except.ok (att, s) →
          isTransientO o = true →
          s < 500 ∧ att0 ≤ att ∧ att - att0 < (o :: rest).length ∧
          (o :: rest)[att - att0]? = some (Outcome.resp s) ∧
          (∀ i < att - att0, ∃ o', (o :: rest)[i]? = some o' ∧ isTransientO o' = true) ∧
          (http_loop b (att0 + 1) rest (some e)).attempts + 1 = att - att0 + 1 := by
      intro e h' hto
      obtain ⟨g1, g2, g3, g4, g5, g6⟩ := ih (att0 + 1) (some e) att s h'
      have hsplit : att - att0 = (att - (att0 + 1)) + 1 := by omega
      refine ⟨g1, by omega, by simp only [List.length_cons]; omega, ?_, ?_, by omega⟩
      · rw [hsplit]
        simpa using g4
      · intro i hi
        cases i with
        | zero => exact ⟨o, by simp, hto⟩
        | succ j =>
          obtain ⟨o', ho1, ho2⟩ := g5 j (by omega)
          exact ⟨o', by simpa using ho1, ho2⟩
    cases o with
    | resp s0 =>
      by_cases hs : 500 ≤ s0
      · have h' : (http_loop b (att0 + 1) rest (some (HErr.httpError s0))).result =
            Except.ok (att, s) := by
          simpa only [http_loop, if_pos hs] using h
        obtain ⟨g1, g2, g3, g4, g5, g6⟩ :=
          step (HErr.httpError s0) h' (by simp [isTransientO, hs])
        refine ⟨g1, g2, g3, g4, g5, ?_⟩
        simp only [http_loop, if_pos hs]
        exact g6
      · have h' : (Except.ok (att0, s0) : Except (Option HErr) (ℕ × ℕ)) =
            Except.ok (att, s) := by
          simpa only [http_loop, if_neg hs] using h
        obtain ⟨rfl, rfl⟩ : att0 = att ∧ s0 = s := by
          simpa only [Except.ok.injEq, Prod.mk.injEq] using h'
        refine ⟨by omega, le_refl _, by simp, by simp, ?_, ?_⟩
        · intro i hi
          exact absurd hi (by omega)
        · simp [http_loop, if_neg hs]
    | transport =>
      have h' : (http_loop b (att0 + 1) rest (some HErr.transport)).result =
          Except.ok (att, s) := by
        simpa only [http_loop] using h
      obtain ⟨g1, g2, g3, g4, g5, g6⟩ := step HErr.transport h' rfl
      refine ⟨g1, g2, g3, g4, g5, ?_⟩
      simp only [http_loop]
      exact g6

/-! ## Claim theorems -/

/-- C7: For every timestamp and record sequence, the rendered report is
exactly a title line, a "last updated" line, and then — when the record
sequence is empty — the "no active trains" line with no per-vehicle
blocks, and — when non-empty — the count line followed by exactly one
block per record, in input order, with no truncation. -/
theorem format_markdown_spec_shape (lu : String) (vs : List VehicleRec) :
    format_markdown lu vs = specReport lu vs := by
  cases vs with
  | nil => rfl
  | cons v rest =>
    simp [format_markdown, specReport, specTitleLine, specUpdatedLine, specCountLine,
      specBlocks, foldl_blocks, String.append_assoc]

/-- C2 (counterexample): on a list whose first item matches only by the
keyword heuristic and whose second item matches the searched title
exactly, `find_task_by_title` returns the first item — the exact match
later in the list does *not* take precedence, contradicting the claim. -/
theorem find_prefers_earlier_keyword_match :
    find_task_by_title [kwOnlyItem, exactItem] DASHBOARD_TITLE = some kwOnlyItem ∧
    exactMatch exactItem DASHBOARD_TITLE = true ∧
    exactMatch kwOnlyItem DASHBOARD_TITLE = false ∧
    kwOnlyItem ≠ exactItem := by
  refine ⟨rfl, by decide, by decide, by decide⟩

/-- C2 (amended): `find_task_by_title` performs a single in-order scan
returning the first item that either matches the title exactly
case-insensitively or contains all three keyword tokens "ktm", "status",
"update" case-insensitively; an earlier keyword-only match therefore
takes precedence over a later exact match; if no item satisfies either
criterion the result is `none`. -/
theorem find_task_single_scan (items : List TaskItem) (title : String) :
    find_task_by_title items title =
      items.find? (fun it => exactMatch it title || kwMatch it) := by
  induction items with
  | nil => rfl
  | cons it rest ih =>
    by_cases h1 : pyLower (getTitle it) = pyLower title
    · simp [find_task_by_title, exactMatch, h1]
    · by_cases h2 : (strContains (pyLower (getTitle it)) "ktm" &&
          strContains (pyLower (getTitle it)) "status" &&
          strContains (pyLower (getTitle it)) "update") = true
      · simp [find_task_by_title, exactMatch, kwMatch, h1, h2]
      · simp [find_task_by_title, exactMatch, kwMatch, h1, h2, ih]

/-- C10: an item whose "title" field is absent or `None` is read as the
empty title, matches neither the exact criterion nor the keyword
criterion (for any non-empty searched title), and the scan continues past
it; the embedded scan is total, mirroring that `dict.get` never raises. -/
theorem find_skips_titleless (oid otid : Option String) (rest : List TaskItem)
    (title : String) (h : title ≠ "") :
    getTitle ⟨none, oid, otid⟩ = "" ∧
    exactMatch ⟨none, oid, otid⟩ title = false ∧
    kwMatch ⟨none, oid, otid⟩ = false ∧
    find_task_by_title (⟨none, oid, otid⟩ :: rest) title =
      find_task_by_title rest title := by
  have hne : pyLower (getTitle (⟨none, oid, otid⟩ : TaskItem)) ≠ pyLower title := by
    have hz : pyLower (getTitle (⟨none, oid, otid⟩ : TaskItem)) = "" := rfl
    rw [hz]
    exact fun he => pyLower_ne_empty h he.symm
  refine ⟨rfl, by simp [exactMatch, hne], rfl, ?_⟩
  simp only [find_task_by_title]
  rw [if_neg hne]
  rfl

/-- C10 witness: instantiated at the dashboard title and a one-element list. -/
theorem find_skips_titleless_witness :
    DASHBOARD_TITLE ≠ "" ∧
    (getTitle ⟨none, none, none⟩ = "" ∧
      exactMatch ⟨none, none, none⟩ DASHBOARD_TITLE = false ∧
      kwMatch ⟨none, none, none⟩ = false ∧
      find_task_by_title [⟨none, none, none⟩] DASHBOARD_TITLE =
        find_task_by_title [] DASHBOARD_TITLE) :=
  ⟨by decide, find_skips_titleless none none [] DASHBOARD_TITLE (by decide)⟩

/-- C8: if the target project identifier or the API token is missing from
the configuration, `main` exits with code 2 having made no outward call
at all (empty call trace, so no network request was attempted). -/
theorem missing_config_exits_2 (cfg : Config) (w : World)
    (h : cfg.projectId = "" ∨ cfg.token = "") :
    main cfg w = (2, []) := by
  rcases h with h | h
  · simp [main, h]
  · by_cases hp : cfg.projectId = ""
    · simp [main, hp]
    · simp [main, hp, h]

/-- C8 witness: missing token with project id present. -/
theorem missing_config_exits_2_witness :
    ((⟨"proj1", "", ""⟩ : Config).projectId = "" ∨ (⟨"proj1", "", ""⟩ : Config).token = "") ∧
    main ⟨"proj1", "", ""⟩ w0 = (2, []) :=
  ⟨Or.inr rfl, missing_config_exits_2 ⟨"proj1", "", ""⟩ w0 (Or.inr rfl)⟩

/-- C6: whenever the configured task identifier is non-empty after
trimming, the feed fetch succeeds and the update endpoint answers with
200 or 204, the orchestrator performs exactly one `update_task` call and
zero `create_task` / `find_task_by_title` calls, and exits 0. -/
theorem have_id_single_update (cfg : Config) (w : World)
    (hp : cfg.projectId ≠ "") (ht : cfg.token ≠ "")
    (htid : pyStrip cfg.taskId ≠ "")
    (feed : Feed) (hf : w.fetchResult = Except.ok feed)
    (st : ℕ) (hu : w.updateResp (pyStrip cfg.taskId) = Except.ok st)
    (hst : st = 200 ∨ st = 204) :
    main cfg w = (0, [Call.fetchFeed, Call.updateT (pyStrip cfg.taskId)]) := by
  have hne : cfg.taskId ≠ "" := fun he => htid (by rw [he]; rfl)
  rcases hst with rfl | rfl <;>
    simp [main, hp, ht, hf, hne, htid, update_task, hu]

/-- C6 witness: a padded configured id, empty feed, healthy update
endpoint. -/
theorem have_id_single_update_witness :
    (cfgWithTask.projectId ≠ "" ∧ cfgWithTask.token ≠ "" ∧
      pyStrip cfgWithTask.taskId ≠ "" ∧
      w0.fetchResult = Except.ok feed0 ∧
      w0.updateResp (pyStrip cfgWithTask.taskId) = Except.ok 200 ∧
      ((200 : ℕ) = 200 ∨ (200 : ℕ) = 204)) ∧
    main cfgWithTask w0 = (0, [Call.fetchFeed, Call.updateT (pyStrip cfgWithTask.taskId)]) :=
  ⟨⟨by decide, by decide, by decide, rfl, rfl, Or.inl rfl⟩,
    have_id_single_update cfgWithTask w0 (by decide) (by decide) (by decide)
      feed0 rfl 200 rfl (Or.inl rfl)⟩

/-- C1 (counterexample): with no configured task id, an empty task list
and a create response of status 200 whose body lacks the
`['item'][0]['id']` path, the orchestrator exits with code 1 — not 0 as
the claim asserts — after the re-raised `KeyError` reaches `main`'s
`except KeyError` handler. -/
theorem malformed_create_exits_1 :
    main cfgNoTask w0 = (1, [Call.fetchFeed, Call.findT, Call.createT]) ∧
    (main cfgNoTask w0).1 ≠ 0 := by
  refine ⟨rfl, by decide⟩

/-- C1 (amended): if the create-task response is successful (status
200/201) but its body lacks the expected identifier path, `create_task`
raises the key-lookup error, and the orchestrator logs it and exits with
code 1 through its `KeyError` handler — never 0 — for this case. -/
theorem malformed_create_raises_and_exits_1 (cfg : Config) (w : World)
    (hp : cfg.projectId ≠ "") (ht : cfg.token ≠ "")
    (hid : pyStrip cfg.taskId = "")
    (feed : Feed) (hf : w.fetchResult = Except.ok feed)
    (items : List TaskItem) (hl : list_tasks w.listResp = Except.ok items)
    (hfind : find_task_by_title items DASHBOARD_TITLE = none)
    (st : ℕ) (body : JVal) (hc : w.createResp = Except.ok (st, body))
    (hst : st = 200 ∨ st = 201)
    (k : String) (hmiss : parse_item_id body = Except.error (PyErr.keyError k)) :
    main cfg w = (1, [Call.fetchFeed, Call.findT, Call.createT]) := by
  rcases hst with rfl | rfl <;>
    simp [main, hp, ht, hf, taskId_strip_eq, hid, hl, hfind, createPath,
      create_task, hc, hmiss]

/-- C1 witness: the counterexample environment instantiates the amended
claim. -/
theorem malformed_create_raises_and_exits_1_witness :
    (cfgNoTask.projectId ≠ "" ∧ cfgNoTask.token ≠ "" ∧
      pyStrip cfgNoTask.taskId = "" ∧
      w0.fetchResult = Except.ok feed0 ∧
      list_tasks w0.listResp = Except.ok [] ∧
      find_task_by_title [] DASHBOARD_TITLE = none ∧
      w0.createResp = Except.ok (200, JVal.jobj [("ok", JVal.jbool true)]) ∧
      ((200 : ℕ) = 200 ∨ (200 : ℕ) = 201) ∧
      parse_item_id (JVal.jobj [("ok", JVal.jbool true)]) =
        Except.error (PyErr.keyError "item")) ∧
    main cfgNoTask w0 = (1, [Call.fetchFeed, Call.findT, Call.createT]) :=
  ⟨⟨by decide, by decide, rfl, rfl, rfl, rfl, rfl, Or.inl rfl, rfl⟩,
    malformed_create_raises_and_exits_1 cfgNoTask w0 (by decide) (by decide) rfl
      feed0 rfl [] rfl rfl 200 (JVal.jobj [("ok", JVal.jbool true)]) rfl
      (Or.inl rfl) "item" rfl⟩

/-- C3 (counterexample): with no configured task id and a task list whose
only item bears the dashboard title but no usable identifier, the
orchestrator does *not* stop after logging: it falls through to
`create_task` (the trace contains `Call.createT`), contradicting the
claim that no `createTask` call is made. -/
theorem idless_found_still_creates :
    main cfgNoTask wIdless = (0, [Call.fetchFeed, Call.findT, Call.createT]) ∧
    Call.createT ∈ (main cfgNoTask wIdless).2 := by
  refine ⟨rfl, by decide⟩

/-- C3 (amended): when no task identifier is configured and the title
search finds a task that lacks a usable identifier, the orchestrator logs
the condition, performs no update, and falls through to `create_task`;
when creation succeeds it terminates with exit code 0. -/
theorem idless_found_creates (cfg : Config) (w : World)
    (hp : cfg.projectId ≠ "") (ht : cfg.token ≠ "")
    (hid : pyStrip cfg.taskId = "")
    (feed : Feed) (hf : w.fetchResult = Except.ok feed)
    (items : List TaskItem) (hl : list_tasks w.listResp = Except.ok items)
    (it : TaskItem) (hfind : find_task_by_title items DASHBOARD_TITLE = some it)
    (hnoid : discoveredId it = "")
    (st : ℕ) (body : JVal) (hc : w.createResp = Except.ok (st, body))
    (hst : st = 200 ∨ st = 201)
    (idv : JVal) (hparse : parse_item_id body = Except.ok idv) :
    main cfg w = (0, [Call.fetchFeed, Call.findT, Call.createT]) := by
  rcases hst with rfl | rfl <;>
    simp [main, hp, ht, hf, taskId_strip_eq, hid, hl, hfind, hnoid, createPath,
      create_task, hc, hparse]

/-- C3 witness: the counterexample environment instantiates the amended
claim. -/
theorem idless_found_creates_witness :
    (cfgNoTask.projectId ≠ "" ∧ cfgNoTask.token ≠ "" ∧
      pyStrip cfgNoTask.taskId = "" ∧
      wIdless.fetchResult = Except.ok feed0 ∧
      list_tasks wIdless.listResp = Except.ok [idlessItem] ∧
      find_task_by_title [idlessItem] DASHBOARD_TITLE = some idlessItem ∧
      discoveredId idlessItem = "" ∧
      wIdless.createResp = Except.ok (200,
        JVal.jobj [("item", JVal.jarr [JVal.jobj [("id", JVal.jstr "newid1")]])]) ∧
      ((200 : ℕ) = 200 ∨ (200 : ℕ) = 201) ∧
      parse_item_id (JVal.jobj [("item", JVal.jarr [JVal.jobj [("id", JVal.jstr "newid1")]])]) =
        Except.ok (JVal.jstr "newid1")) ∧
    main cfgNoTask wIdless = (0, [Call.fetchFeed, Call.findT, Call.createT]) :=
  ⟨⟨by decide, by decide, rfl, rfl, rfl, rfl, rfl, rfl, Or.inl rfl, rfl⟩,
    idless_found_creates cfgNoTask wIdless (by decide) (by decide) rfl
      feed0 rfl [idlessItem] rfl idlessItem rfl rfl 200
      (JVal.jobj [("item", JVal.jarr [JVal.jobj [("id", JVal.jstr "newid1")]])]) rfl
      (Or.inl rfl) (JVal.jstr "newid1") rfl⟩

/-- C4: the code evaluated at a feed whose single entity has vehicle data
but no position sub-message: because `if vehicle.position:` tests the
always-truthy protobuf message object, the position branch is taken and
the record carries numeric zeros — not the "Unknown" sentinel the claim
(and the script's own dead `else` branch) prescribes. -/
theorem no_position_yields_zeros :
    parse_feed noPositionFeed = (none, [zeroGeoRec]) ∧
    zeroGeoRec.lat = GeoVal.num 0 ∧ zeroGeoRec.lat ≠ GeoVal.unknownV ∧
    zeroGeoRec.lon = GeoVal.num 0 ∧ zeroGeoRec.speed_kmh = GeoVal.num 0 := by
  refine ⟨?_, rfl, by decide, rfl, rfl⟩
  simp [parse_feed, noPositionFeed, extract_vehicles, msgTruthy, protoFloatIsNone,
    pyRound, roundHalfEven, ratFloor_eq_floor, zeroGeoRec]

/-- C5: when every attempt fails transiently (5xx response or transport
error), `http_request` makes exactly one attempt per available outcome
(i.e. `MAX_RETRIES` attempts), the sleep recorded after attempt `i` is
`RETRY_BACKOFF ^ (i - 1)` — so consecutive attempts are separated by the
expected exponential delays — and the final raise carries the error of
the last attempt (the last underlying cause). -/
theorem http_all_transient_exhausts (b : ℚ) (outs : List Outcome)
    (hne : outs ≠ []) (hall : ∀ o ∈ outs, isTransientO o = true) :
    (http_request b outs).attempts = outs.length ∧
    (http_request b outs).result = Except.error ((outs.getLast?).map outErr) ∧
    (http_request b outs).sleeps = (List.range outs.length).map (fun i => b ^ i) := by
  obtain ⟨h1, h2, h3⟩ := http_loop_transient_run b outs 1 none (le_refl 1) hall
  refine ⟨h3, ?_, ?_⟩
  · simp only [http_request]
    rw [h1, foldl_lastErr outs none hne]
  · simp only [http_request]
    rw [h2]
    refine List.map_congr_left ?_
    intro i _
    exact congrArg (fun e => b ^ e) (by omega)

/-- C5 witness: three transient outcomes with backoff 3/2. -/
theorem http_all_transient_exhausts_witness :
    (transientOuts ≠ [] ∧ ∀ o ∈ transientOuts, isTransientO o = true) ∧
    ((http_request (3/2) transientOuts).attempts = transientOuts.length ∧
      (http_request (3/2) transientOuts).result =
        Except.error ((transientOuts.getLast?).map outErr) ∧
      (http_request (3/2) transientOuts).sleeps =
        (List.range transientOuts.length).map (fun i => (3/2 : ℚ) ^ i)) :=
  ⟨⟨by decide, by decide⟩,
    http_all_transient_exhausts (3/2) transientOuts (by decide) (by decide)⟩

/-- C9: whenever `http_request` returns a response rather than raising,
that response's status is strictly below 500, it came from the first
attempt whose outcome was not transient (every earlier attempt was a
transport error or a 5xx), and no further attempt was issued after it —
statuses below 500, 4xx included, are never retried. -/
theorem http_ok_first_nontransient (b : ℚ) (outs : List Outcome) (att s : ℕ)
    (h : (http_request b outs).result = Except.ok (att, s)) :
    s < 500 ∧ 1 ≤ att ∧ att - 1 < outs.length ∧
    outs[att - 1]? = some (Outcome.resp s) ∧
    (∀ i < att - 1, ∃ o, outs[i]? = some o ∧ isTransientO o = true) ∧
    (http_request b outs).attempts = att := by
  obtain ⟨g1, g2, g3, g4, g5, g6⟩ := http_loop_ok_inv b outs 1 none att s h
  exact ⟨g1, g2, g3, g4, g5, by simp only [http_request]; rw [g6]; omega⟩

/-- C9 witness: two transient outcomes followed by a 404 returned on the
third attempt. -/
theorem http_ok_first_nontransient_witness :
    (http_request (3/2) mixedOuts).result = Except.ok (3, 404) ∧
    ((404 : ℕ) < 500 ∧ (1 : ℕ) ≤ 3 ∧ 3 - 1 < mixedOuts.length ∧
      mixedOuts[3 - 1]? = some (Outcome.resp 404) ∧
      (∀ i < 3 - 1, ∃ o, mixedOuts[i]? = some o ∧ isTransientO o = true) ∧
      (http_request (3/2) mixedOuts).attempts = 3) :=
  ⟨rfl, http_ok_first_nontransient (3/2) mixedOuts 3 404 rfl⟩

end KTM
